import Mathlib

/-!
Verification of the WeatherNow weather-service core
(`src/backend/src/services/weather`, file `weatherService.ts`).

JavaScript numbers are modelled as rationals (`ℚ`), timestamps
(`Date` values) as integers counting milliseconds (`ℤ`), and the
one-decimal rounding `parseFloat(x.toFixed(1))` as `round1`.
The module-level mutable cache slot `weatherCache` becomes an explicit
`Option CachedWeatherData` value threaded through the operations, and
the upstream HTTP interaction of `fetchWeatherData` becomes an explicit
`FetchOutcome` argument (transport error, or a response with an `ok`
flag and a JSON body).
-/

namespace Weather

/-- One-decimal rounding, `parseFloat(x.toFixed(1))`: `toFixed(1)` picks the
closest multiple of 1/10, ties going to the larger value, which is exactly
`round` (round half towards +∞) applied to `10 * x`. -/
def round1 (x : ℚ) : ℚ := (round (10 * x) : ℤ) / 10

/-- The `'celsius' | 'fahrenheit'` union type of `weatherTypes.ts`. -/
inductive TemperatureUnit
  | celsius
  | fahrenheit
deriving DecidableEq, Repr

/-- The `'online' | 'offline' | 'outdated'` union type of `weatherTypes.ts`. -/
inductive ConnectionStatus
  | online
  | offline
  | outdated
deriving DecidableEq, Repr

/-- `WeatherData` from `weatherTypes.ts`. -/
structure WeatherData where
  temperature : ℚ
  temperatureUnit : TemperatureUnit
  location : String
  lastUpdate : ℤ
  connectionStatus : ConnectionStatus
deriving DecidableEq, Repr

/-- `CachedWeatherData` from `weatherTypes.ts`: `WeatherData` plus `cachedAt`. -/
structure CachedWeatherData extends WeatherData where
  cachedAt : ℤ
deriving DecidableEq, Repr

/-- The `current` part of `WeatherApiResponse` (`last_updated` modelled as the
parsed `Date`, i.e. an integer timestamp). -/
structure ApiCurrent where
  temp_c : ℚ
  temp_f : ℚ
  last_updated : ℤ
deriving DecidableEq, Repr

/-- The `location` part of `WeatherApiResponse`; `region` may be the empty
string, in which case `region || country` in the source falls back to
`country`. -/
structure ApiLocation where
  name : String
  region : String
  country : String
deriving DecidableEq, Repr

/-- `WeatherApiResponse` from `weatherTypes.ts`. -/
structure WeatherApiResponse where
  current : ApiCurrent
  location : ApiLocation
deriving DecidableEq, Repr

/-- `TemperatureConversionParams` from `weatherTypes.ts` (`from`/`to` are
keywords in Lean, so the fields are `fromUnit`/`toUnit`). -/
structure TemperatureConversionParams where
  value : ℚ
  fromUnit : TemperatureUnit
  toUnit : TemperatureUnit
deriving DecidableEq, Repr

/-- `convertTemperature` from `weatherService.ts`: identity (rounded) when the
units agree, the two standard formulas otherwise, and a defensive rounded
fallback for any remaining combination. -/
def convertTemperature (params : TemperatureConversionParams) : ℚ :=
  if params.fromUnit = params.toUnit then
    round1 params.value
  else if params.fromUnit = .celsius ∧ params.toUnit = .fahrenheit then
    round1 (params.value * 9 / 5 + 32)
  else if params.fromUnit = .fahrenheit ∧ params.toUnit = .celsius then
    round1 ((params.value - 32) * 5 / 9)
  else
    round1 params.value

/-- The failures of `weatherService.ts`: the three `Error` messages thrown by
the service itself, plus a constructor for an error thrown by the transport
layer (`fetch` rejecting or `response.json()` failing), which the service
catches and, with an empty cache, rethrows unchanged. -/
inductive WeatherError
  | weatherApiRequestFailed
  | temperatureOutOfRange
  | noCachedDataAvailable
  | upstreamTransportFailure
deriving DecidableEq, Repr

/-- The upstream HTTP interaction of `fetchWeatherData`, made explicit: either
the transport throws, or a response arrives carrying its `ok` flag and parsed
JSON body. -/
inductive FetchOutcome
  | transportFailure
  | response (ok : Bool) (body : WeatherApiResponse)
deriving DecidableEq, Repr

/-- The local constant `oneHour = 60 * 60 * 1000` of `getCachedWeatherData`. -/
def oneHour : ℤ := 60 * 60 * 1000

/-- The local constant `twentyFourHours = 24 * 60 * 60 * 1000` of
`getCachedWeatherData`. -/
def twentyFourHours : ℤ := 24 * 60 * 60 * 1000

/-- The `@rule be-cache-expiration` block of `getCachedWeatherData`: start from
`offline`, reassign to `outdated` when `cacheAge > twentyFourHours`, else
reassign to `outdated` when `cacheAge > oneHour`. -/
def cacheStatus (cacheAge : ℤ) : ConnectionStatus :=
  if cacheAge > twentyFourHours then .outdated
  else if cacheAge > oneHour then .outdated
  else .offline

/-- `getCachedWeatherData` from `weatherService.ts`, with the implicit inputs
made explicit: `now` is `new Date()` and `weatherCache` the module-level slot.
Throwing is modelled by `Except`. -/
def getCachedWeatherData (now : ℤ) (weatherCache : Option CachedWeatherData) :
    Except WeatherError WeatherData :=
  match weatherCache with
  | none => .error .noCachedDataAvailable
  | some cached =>
      let cacheAge := now - cached.cachedAt
      .ok { cached.toWeatherData with connectionStatus := cacheStatus cacheAge }

/-- The `WeatherData` record literal built by `fetchWeatherData` on success:
temperature rounded to one decimal, unit `celsius`, display location
`name + ", " + (region || country)` (`||` falls back on the empty string),
status `online`. -/
def freshWeatherData (data : WeatherApiResponse) : WeatherData :=
  { temperature := round1 data.current.temp_c
    temperatureUnit := .celsius
    location := data.location.name ++ ", " ++
      (if data.location.region = "" then data.location.country else data.location.region)
    lastUpdate := data.current.last_updated
    connectionStatus := .online }

/-- The `try` block of `fetchWeatherData`: a transport failure aborts; a
non-`ok` response throws `weatherApiRequestFailed`; a Celsius reading outside
`[-90, 60]` throws `temperatureOutOfRange`; otherwise the fresh reading is
returned together with the `CachedWeatherData` written to the slot
(the reading spread with `cachedAt = new Date()`). -/
def fetchAttempt (outcome : FetchOutcome) (now : ℤ) :
    Except WeatherError (WeatherData × CachedWeatherData) :=
  match outcome with
  | .transportFailure => .error .upstreamTransportFailure
  | .response ok data =>
      if !ok then .error .weatherApiRequestFailed
      else if data.current.temp_c < -90 ∨ data.current.temp_c > 60 then
        .error .temperatureOutOfRange
      else
        .ok (freshWeatherData data,
          { toWeatherData := freshWeatherData data, cachedAt := now })

/-- `fetchWeatherData` from `weatherService.ts` as a state transformer on the
cache slot: on success the slot is overwritten and the fresh reading returned;
on any caught failure (`@rule be-offline-fallback`) a populated slot answers
with `getCachedWeatherData()` and an empty slot rethrows the original error.
The returned pair is (thrown-or-returned value, slot after the call). -/
def fetchWeatherData (outcome : FetchOutcome) (now : ℤ)
    (weatherCache : Option CachedWeatherData) :
    Except WeatherError WeatherData × Option CachedWeatherData :=
  match fetchAttempt outcome now with
  | .ok (weatherData, newCache) => (.ok weatherData, some newCache)
  | .error err =>
      match weatherCache with
      | some _ => (getCachedWeatherData now weatherCache, weatherCache)
      | none => (.error err, weatherCache)

/-- `hasCachedData` from `weatherService.ts`: `weatherCache !== null`. -/
def hasCachedData (weatherCache : Option CachedWeatherData) : Bool :=
  weatherCache.isSome

/-- `clearCache` from `weatherService.ts`: `weatherCache = null`. -/
def clearCache (_weatherCache : Option CachedWeatherData) : Option CachedWeatherData :=
  none

/-- One invocation of any of the five exported operations, with its explicit
inputs; `convert` is included for completeness although it never touches the
slot. -/
inductive Op
  | fetch (outcome : FetchOutcome) (now : ℤ)
  | getCached (now : ℤ)
  | convert (params : TemperatureConversionParams)
  | hasData
  | clear

/-- Effect of one operation on the cache slot: only `fetch` and `clear`
mutate it. -/
def step (weatherCache : Option CachedWeatherData) : Op → Option CachedWeatherData
  | .fetch outcome now => (fetchWeatherData outcome now weatherCache).2
  | .getCached _ => weatherCache
  | .convert _ => weatherCache
  | .hasData => weatherCache
  | .clear => clearCache weatherCache

/-- Cache slot reached by a sequence of operations from the initial empty
slot (`let weatherCache = null` at module load). -/
def run (ops : List Op) : Option CachedWeatherData :=
  ops.foldl step none

/-- Modelled from the spec for comparison in the refinement claim: the
single-threshold classification `age ≤ 1 hour → offline, otherwise
outdated`. -/
def singleThresholdStatus (cacheAge : ℤ) : ConnectionStatus :=
  if cacheAge ≤ oneHour then .offline else .outdated

/-! Helper lemmas about one-decimal rounding. -/

theorem abs_round1_sub (x : ℚ) : |round1 x - x| ≤ 1 / 20 := by
  have h := abs_sub_round (10 * x)
  have h2 : round1 x - x = -((10 * x - ((round (10 * x) : ℤ) : ℚ)) / 10) := by
    unfold round1; ring
  rw [h2, abs_neg, abs_div, abs_of_pos (show (0 : ℚ) < 10 by norm_num)]
  linarith [abs_nonneg (10 * x - ((round (10 * x) : ℤ) : ℚ))]

theorem round1_idem (x : ℚ) : round1 (round1 x) = round1 x := by
  unfold round1
  have h : (10 : ℚ) * (((round (10 * x) : ℤ) : ℚ) / 10) = ((round (10 * x) : ℤ) : ℚ) := by
    ring
  rw [h, round_intCast]

theorem round1_le_round1 {x y : ℚ} (h : x ≤ y) : round1 x ≤ round1 y := by
  unfold round1
  have hr : round (10 * x) ≤ round (10 * y) := by
    rw [round_eq, round_eq]
    exact Int.floor_mono (by linarith)
  have hq : ((round (10 * x) : ℤ) : ℚ) ≤ ((round (10 * y) : ℤ) : ℚ) :=
    Int.cast_le.mpr hr
  linarith

theorem round1_neg_ninety : round1 (-90) = -90 := by
  norm_num [round1, round_eq]

theorem round1_sixty : round1 60 = 60 := by
  norm_num [round1, round_eq]

/-- The two-branch classification can only produce `offline` or `outdated`,
never `online`. -/
theorem cacheStatus_not_online (cacheAge : ℤ) :
    cacheStatus cacheAge = .offline ∨ cacheStatus cacheAge = .outdated := by
  unfold cacheStatus
  split
  · exact Or.inr rfl
  · split
    · exact Or.inr rfl
    · exact Or.inl rfl

/-- Claim C5: `convertTemperature` is a pure total function returning
`round1 v` when the units agree (and as defensive fallback), applying
`v * 9/5 + 32` for celsius→fahrenheit and `(v - 32) * 5/9` for
fahrenheit→celsius, each rounded to one decimal; in particular
0 °C ↦ 32 °F, 100 °C ↦ 212 °F and 32 °F ↦ 0 °C. -/
theorem claim_C5 :
    (∀ (v : ℚ) (u : TemperatureUnit), convertTemperature ⟨v, u, u⟩ = round1 v) ∧
    (∀ v : ℚ, convertTemperature ⟨v, .celsius, .fahrenheit⟩ = round1 (v * 9 / 5 + 32)) ∧
    (∀ v : ℚ, convertTemperature ⟨v, .fahrenheit, .celsius⟩ = round1 ((v - 32) * 5 / 9)) ∧
    convertTemperature ⟨0, .celsius, .fahrenheit⟩ = 32 ∧
    convertTemperature ⟨100, .celsius, .fahrenheit⟩ = 212 ∧
    convertTemperature ⟨32, .fahrenheit, .celsius⟩ = 0 := by
  refine ⟨fun v u => by simp [convertTemperature], fun v => by simp [convertTemperature],
    fun v => by simp [convertTemperature], ?_, ?_, ?_⟩ <;>
    norm_num +decide [convertTemperature, round1, round_eq]

/-- Claim C6: converting with equal units is `round1`, and the
celsius→fahrenheit→celsius round trip recovers the input to within 0.1. -/
theorem claim_C6 (v : ℚ) :
    convertTemperature ⟨v, .celsius, .celsius⟩ = round1 v ∧
    |convertTemperature ⟨convertTemperature ⟨v, .celsius, .fahrenheit⟩,
        .fahrenheit, .celsius⟩ - v| ≤ 1 / 10 := by
  constructor
  · simp [convertTemperature]
  · have e1 := abs_round1_sub (v * 9 / 5 + 32)
    have e2 := abs_round1_sub ((round1 (v * 9 / 5 + 32) - 32) * 5 / 9)
    simp +decide only [convertTemperature, if_true, if_false]
    rw [abs_le] at e1 e2 ⊢
    constructor <;> linarith

/-- Claim C7: the two-branch cache-age classification of
`getCachedWeatherData` (separate `> 24h` and `> 1h` tests, both yielding
`outdated`) is observationally equivalent to the single-threshold
classification `age ≤ 1h → offline, else outdated`, so the 24-hour
threshold has no observable effect. -/
theorem claim_C7 :
    (∀ cacheAge : ℤ, cacheStatus cacheAge = singleThresholdStatus cacheAge) ∧
    (∀ (now : ℤ) (cached : CachedWeatherData),
      getCachedWeatherData now (some cached) =
        .ok { cached.toWeatherData with
                connectionStatus := singleThresholdStatus (now - cached.cachedAt) }) := by
  have h : ∀ cacheAge : ℤ, cacheStatus cacheAge = singleThresholdStatus cacheAge := by
    intro cacheAge
    unfold cacheStatus singleThresholdStatus oneHour twentyFourHours
    split
    · rw [if_neg]; omega
    · split
      · rw [if_neg]; omega
      · rw [if_pos]; omega
  exact ⟨h, fun now cached => by simp [getCachedWeatherData, h]⟩

theorem cacheStatus_of_le {cacheAge : ℤ} (h : cacheAge ≤ oneHour) :
    cacheStatus cacheAge = .offline := by
  unfold cacheStatus
  unfold oneHour at h
  rw [if_neg (by unfold twentyFourHours; omega), if_neg (by unfold oneHour; omega)]

theorem cacheStatus_of_gt {cacheAge : ℤ} (h : oneHour < cacheAge) :
    cacheStatus cacheAge = .outdated := by
  unfold cacheStatus
  unfold oneHour at h
  split
  · rfl
  · rw [if_pos (by unfold oneHour; omega)]

/-- A concrete cached reading, stored at time 0, used to instantiate
hypotheses of the claims below. -/
def sampleCached : CachedWeatherData :=
  { temperature := 20
    temperatureUnit := .celsius
    location := "London, City of London"
    lastUpdate := 0
    connectionStatus := .online
    cachedAt := 0 }

/-- A concrete in-range upstream payload. -/
def sampleBody : WeatherApiResponse :=
  { current := { temp_c := 20, temp_f := 68, last_updated := 100 }
    location := { name := "London", region := "City of London", country := "UK" } }

/-- Claim C2: `getCachedWeatherData` fails with `noCachedDataAvailable`
exactly when the slot is empty; otherwise it returns the cached payload with
status `offline` when the age is at most one hour and `outdated` when it is
greater (covering both the 1–24 h band and the >24 h band); ages of 30
minutes, 2 hours and 25 hours give `offline`, `outdated`, `outdated`. -/
theorem claim_C2 :
    (∀ (now : ℤ) (weatherCache : Option CachedWeatherData),
      getCachedWeatherData now weatherCache = .error .noCachedDataAvailable ↔
        weatherCache = none) ∧
    (∀ (now : ℤ) (cached : CachedWeatherData), now - cached.cachedAt ≤ oneHour →
      getCachedWeatherData now (some cached) =
        .ok { cached.toWeatherData with connectionStatus := .offline }) ∧
    (∀ (now : ℤ) (cached : CachedWeatherData), oneHour < now - cached.cachedAt →
      getCachedWeatherData now (some cached) =
        .ok { cached.toWeatherData with connectionStatus := .outdated }) ∧
    (∀ cached : CachedWeatherData,
      getCachedWeatherData (cached.cachedAt + 30 * 60 * 1000) (some cached) =
        .ok { cached.toWeatherData with connectionStatus := .offline }) ∧
    (∀ cached : CachedWeatherData,
      getCachedWeatherData (cached.cachedAt + 2 * 60 * 60 * 1000) (some cached) =
        .ok { cached.toWeatherData with connectionStatus := .outdated }) ∧
    (∀ cached : CachedWeatherData,
      getCachedWeatherData (cached.cachedAt + 25 * 60 * 60 * 1000) (some cached) =
        .ok { cached.toWeatherData with connectionStatus := .outdated }) := by
  refine ⟨?_, ?_, ?_, ?_, ?_, ?_⟩
  · intro now weatherCache
    cases weatherCache <;> simp [getCachedWeatherData]
  · intro now cached h
    simp [getCachedWeatherData, cacheStatus_of_le h]
  · intro now cached h
    simp [getCachedWeatherData, cacheStatus_of_gt h]
  · intro cached
    simp [getCachedWeatherData, cacheStatus_of_le (show (1800000 : ℤ) ≤ oneHour by decide)]
  · intro cached
    simp [getCachedWeatherData, cacheStatus_of_gt (show oneHour < (7200000 : ℤ) by decide)]
  · intro cached
    simp [getCachedWeatherData, cacheStatus_of_gt (show oneHour < (90000000 : ℤ) by decide)]

/-- Witness for C2 at age 30 minutes and age 2 hours on a concrete cached
reading stored at time 0. -/
theorem claim_C2_witness :
    ((1800000 : ℤ) - sampleCached.cachedAt ≤ oneHour ∧
      getCachedWeatherData 1800000 (some sampleCached) =
        .ok { sampleCached.toWeatherData with connectionStatus := .offline }) ∧
    (oneHour < (7200000 : ℤ) - sampleCached.cachedAt ∧
      getCachedWeatherData 7200000 (some sampleCached) =
        .ok { sampleCached.toWeatherData with connectionStatus := .outdated }) :=
  ⟨⟨by decide, claim_C2.2.1 1800000 sampleCached (by decide)⟩,
   ⟨by decide, claim_C2.2.2.1 7200000 sampleCached (by decide)⟩⟩

/-- Claim C8: `clearCache` empties the slot unconditionally from any state and
never fails; immediately afterwards `hasCachedData` is `false` and
`getCachedWeatherData` fails with `noCachedDataAvailable`; `hasCachedData`
returns exactly whether the slot is populated and, like `getCachedWeatherData`,
leaves the slot unchanged. -/
theorem claim_C8 :
    (∀ weatherCache, clearCache weatherCache = none) ∧
    (∀ weatherCache, hasCachedData (clearCache weatherCache) = false) ∧
    (∀ (weatherCache) (now : ℤ),
      getCachedWeatherData now (clearCache weatherCache) =
        .error .noCachedDataAvailable) ∧
    (∀ weatherCache, hasCachedData weatherCache = true ↔
      ∃ cached, weatherCache = some cached) ∧
    (∀ weatherCache, step weatherCache .hasData = weatherCache) ∧
    (∀ (weatherCache) (now : ℤ), step weatherCache (.getCached now) = weatherCache) := by
  refine ⟨fun _ => rfl, fun _ => rfl, fun _ _ => rfl, fun weatherCache => ?_,
    fun _ => rfl, fun _ _ => rfl⟩
  cases weatherCache <;> simp [hasCachedData]

/-! Helper lemmas about `fetchAttempt` and `fetchWeatherData`. -/

theorem fetchAttempt_response_true (data : WeatherApiResponse) (now : ℤ) :
    fetchAttempt (.response true data) now =
      if data.current.temp_c < -90 ∨ data.current.temp_c > 60 then
        .error .temperatureOutOfRange
      else
        .ok (freshWeatherData data,
          { toWeatherData := freshWeatherData data, cachedAt := now }) := by
  simp [fetchAttempt]

theorem fetchAttempt_success {data : WeatherApiResponse} {now : ℤ}
    (h1 : -90 ≤ data.current.temp_c) (h2 : data.current.temp_c ≤ 60) :
    fetchAttempt (.response true data) now =
      .ok (freshWeatherData data,
        { toWeatherData := freshWeatherData data, cachedAt := now }) := by
  rw [fetchAttempt_response_true, if_neg]
  push_neg
  exact ⟨by linarith, by linarith⟩

theorem fetchWeatherData_snd_of_fail {outcome : FetchOutcome} {now : ℤ}
    {err : WeatherError} (hfail : fetchAttempt outcome now = .error err)
    (weatherCache : Option CachedWeatherData) :
    (fetchWeatherData outcome now weatherCache).2 = weatherCache := by
  unfold fetchWeatherData
  rw [hfail]
  cases weatherCache <;> rfl

theorem fetchWeatherData_of_fail {outcome : FetchOutcome} {now : ℤ}
    {err : WeatherError} (hfail : fetchAttempt outcome now = .error err) :
    (∀ cached : CachedWeatherData,
      fetchWeatherData outcome now (some cached) =
        (getCachedWeatherData now (some cached), some cached)) ∧
    fetchWeatherData outcome now none = (.error err, none) := by
  constructor
  · intro cached
    unfold fetchWeatherData
    rw [hfail]
  · unfold fetchWeatherData
    rw [hfail]

theorem fetchWeatherData_of_success {data : WeatherApiResponse} {now : ℤ}
    (h1 : -90 ≤ data.current.temp_c) (h2 : data.current.temp_c ≤ 60)
    (weatherCache : Option CachedWeatherData) :
    fetchWeatherData (.response true data) now weatherCache =
      (.ok (freshWeatherData data),
        some { toWeatherData := freshWeatherData data, cachedAt := now }) := by
  unfold fetchWeatherData
  rw [fetchAttempt_success h1 h2]

/-- Claim C1: whenever the upstream fetch fails (transport error, non-success
status, or range-validation failure), a populated cache makes
`fetchWeatherData` return the result of `getCachedWeatherData()` — a reading
whose status is `offline` or `outdated` — leaving the slot alone, while an
empty cache makes it propagate the original failure. -/
theorem claim_C1 (outcome : FetchOutcome) (now : ℤ) (err : WeatherError)
    (hfail : fetchAttempt outcome now = .error err) :
    (∀ cached : CachedWeatherData,
      fetchWeatherData outcome now (some cached) =
        (getCachedWeatherData now (some cached), some cached) ∧
      ∃ reading : WeatherData,
        (fetchWeatherData outcome now (some cached)).1 = .ok reading ∧
        (reading.connectionStatus = .offline ∨
          reading.connectionStatus = .outdated)) ∧
    fetchWeatherData outcome now none = (.error err, none) := by
  refine ⟨fun cached => ⟨(fetchWeatherData_of_fail hfail).1 cached, ?_⟩,
    (fetchWeatherData_of_fail hfail).2⟩
  rw [(fetchWeatherData_of_fail hfail).1 cached]
  exact ⟨{ cached.toWeatherData with
            connectionStatus := cacheStatus (now - cached.cachedAt) },
    rfl, cacheStatus_not_online (now - cached.cachedAt)⟩

/-- Witness for C1: a transport failure at time 0, against the concrete
populated and empty caches. -/
theorem claim_C1_witness :
    fetchAttempt .transportFailure 0 = .error .upstreamTransportFailure ∧
    (fetchWeatherData .transportFailure 0 (some sampleCached) =
        (getCachedWeatherData 0 (some sampleCached), some sampleCached) ∧
      ∃ reading : WeatherData,
        (fetchWeatherData .transportFailure 0 (some sampleCached)).1 =
          .ok reading ∧
        (reading.connectionStatus = .offline ∨
          reading.connectionStatus = .outdated)) ∧
    fetchWeatherData .transportFailure 0 none =
      (.error .upstreamTransportFailure, none) :=
  ⟨rfl, (claim_C1 .transportFailure 0 .upstreamTransportFailure rfl).1 sampleCached,
    (claim_C1 .transportFailure 0 .upstreamTransportFailure rfl).2⟩

/-- Claim C10: a failing fetch leaves the cache slot — contents and
`cachedAt` timestamp included — exactly as it was, both on the fallback path
and on the propagation path. -/
theorem claim_C10 (outcome : FetchOutcome) (now : ℤ) (err : WeatherError)
    (hfail : fetchAttempt outcome now = .error err)
    (weatherCache : Option CachedWeatherData) :
    (fetchWeatherData outcome now weatherCache).2 = weatherCache :=
  fetchWeatherData_snd_of_fail hfail weatherCache

/-- Witness for C10: a non-success HTTP response at time 0 against the
concrete populated cache and against the empty cache. -/
theorem claim_C10_witness :
    fetchAttempt (.response false sampleBody) 0 = .error .weatherApiRequestFailed ∧
    (fetchWeatherData (.response false sampleBody) 0 (some sampleCached)).2 =
      some sampleCached ∧
    (fetchWeatherData (.response false sampleBody) 0 none).2 = none :=
  ⟨rfl, claim_C10 (.response false sampleBody) 0 .weatherApiRequestFailed rfl
      (some sampleCached),
    claim_C10 (.response false sampleBody) 0 .weatherApiRequestFailed rfl none⟩

/-- A concrete upstream payload whose Celsius reading 61 is just above the
plausible range. -/
def sampleBody61 : WeatherApiResponse :=
  { current := { temp_c := 61, temp_f := 142, last_updated := 100 }
    location := { name := "Dallol", region := "", country := "Ethiopia" } }

/-- A concrete upstream payload whose Celsius reading sits exactly on the
upper boundary 60. -/
def sampleBody60 : WeatherApiResponse :=
  { current := { temp_c := 60, temp_f := 140, last_updated := 100 }
    location := { name := "Dallol", region := "", country := "Ethiopia" } }

/-- Claim C4: on a successful HTTP response, the payload is treated as a
`temperatureOutOfRange` failure exactly when `temp_c` lies outside
`[-90, 60]`; such a value is never returned directly (the call falls back or
propagates per cache state), while the boundary values −90 and 60 are accepted
and produce a normal successful reading. -/
theorem claim_C4 :
    (∀ (data : WeatherApiResponse) (now : ℤ),
      fetchAttempt (.response true data) now = .error .temperatureOutOfRange ↔
        (data.current.temp_c < -90 ∨ data.current.temp_c > 60)) ∧
    (∀ (data : WeatherApiResponse) (now : ℤ),
      (data.current.temp_c < -90 ∨ data.current.temp_c > 60) →
        fetchWeatherData (.response true data) now none =
          (.error .temperatureOutOfRange, none) ∧
        ∀ cached : CachedWeatherData,
          fetchWeatherData (.response true data) now (some cached) =
            (getCachedWeatherData now (some cached), some cached)) ∧
    (∀ (data : WeatherApiResponse) (now : ℤ),
      (data.current.temp_c = -90 ∨ data.current.temp_c = 60) →
        ∀ weatherCache : Option CachedWeatherData,
          fetchWeatherData (.response true data) now weatherCache =
            (.ok (freshWeatherData data),
              some { toWeatherData := freshWeatherData data, cachedAt := now })) := by
  refine ⟨?_, ?_, ?_⟩
  · intro data now
    rw [fetchAttempt_response_true]
    split
    · simp_all
    · simp_all
  · intro data now h
    have hfail : fetchAttempt (.response true data) now = .error .temperatureOutOfRange := by
      rw [fetchAttempt_response_true, if_pos h]
    exact ⟨(fetchWeatherData_of_fail hfail).2, (fetchWeatherData_of_fail hfail).1⟩
  · intro data now h weatherCache
    rcases h with h | h <;>
      exact fetchWeatherData_of_success (by norm_num [h]) (by norm_num [h])
        weatherCache

/-- Witness for C4: `temp_c = 61` is rejected (propagating on an empty cache
and falling back on a populated one) and `temp_c = 60` is accepted. -/
theorem claim_C4_witness :
    (sampleBody61.current.temp_c < -90 ∨ sampleBody61.current.temp_c > 60) ∧
    (fetchWeatherData (.response true sampleBody61) 0 none =
        (.error .temperatureOutOfRange, none) ∧
      ∀ cached : CachedWeatherData,
        fetchWeatherData (.response true sampleBody61) 0 (some cached) =
          (getCachedWeatherData 0 (some cached), some cached)) ∧
    (sampleBody60.current.temp_c = -90 ∨ sampleBody60.current.temp_c = 60) ∧
    fetchWeatherData (.response true sampleBody60) 0 (some sampleCached) =
      (.ok (freshWeatherData sampleBody60),
        some { toWeatherData := freshWeatherData sampleBody60, cachedAt := 0 }) :=
  ⟨by norm_num [sampleBody61],
    claim_C4.2.1 sampleBody61 0 (by norm_num [sampleBody61]),
    by norm_num [sampleBody60],
    claim_C4.2.2 sampleBody60 0 (by norm_num [sampleBody60]) (some sampleCached)⟩

/-- Claim C3: every successful fetch returns a Celsius reading with status
`online` and the provider temperature rounded to one decimal, and overwrites
the whole cache slot with that reading stamped `cachedAt = now`; two
successive successful fetches therefore leave only the second payload's data
in the slot, whatever was there before. -/
theorem claim_C3 :
    (∀ (data : WeatherApiResponse) (now : ℤ)
        (weatherCache : Option CachedWeatherData),
      -90 ≤ data.current.temp_c → data.current.temp_c ≤ 60 →
      fetchWeatherData (.response true data) now weatherCache =
        (.ok (freshWeatherData data),
          some { toWeatherData := freshWeatherData data, cachedAt := now }) ∧
      (freshWeatherData data).temperatureUnit = .celsius ∧
      (freshWeatherData data).connectionStatus = .online ∧
      (freshWeatherData data).temperature = round1 data.current.temp_c) ∧
    (∀ (d1 d2 : WeatherApiResponse) (n1 n2 : ℤ)
        (weatherCache : Option CachedWeatherData),
      -90 ≤ d1.current.temp_c → d1.current.temp_c ≤ 60 →
      -90 ≤ d2.current.temp_c → d2.current.temp_c ≤ 60 →
      (fetchWeatherData (.response true d2) n2
          (fetchWeatherData (.response true d1) n1 weatherCache).2).2 =
        some { toWeatherData := freshWeatherData d2, cachedAt := n2 }) := by
  constructor
  · intro data now weatherCache h1 h2
    exact ⟨fetchWeatherData_of_success h1 h2 weatherCache, rfl, rfl, rfl⟩
  · intro d1 d2 n1 n2 weatherCache _ _ h3 h4
    rw [fetchWeatherData_of_success h3 h4]

/-- Witness for C3: a successful fetch of the concrete payload at time 5 over
an empty slot, then a second successful fetch of a different location at
time 7. -/
theorem claim_C3_witness :
    ((-90 : ℚ) ≤ sampleBody.current.temp_c ∧ sampleBody.current.temp_c ≤ 60 ∧
      (-90 : ℚ) ≤ sampleBody60.current.temp_c ∧
      sampleBody60.current.temp_c ≤ 60) ∧
    (fetchWeatherData (.response true sampleBody) 5 none =
        (.ok (freshWeatherData sampleBody),
          some { toWeatherData := freshWeatherData sampleBody, cachedAt := 5 }) ∧
      (freshWeatherData sampleBody).temperatureUnit = .celsius ∧
      (freshWeatherData sampleBody).connectionStatus = .online ∧
      (freshWeatherData sampleBody).temperature =
        round1 sampleBody.current.temp_c) ∧
    (fetchWeatherData (.response true sampleBody60) 7
        (fetchWeatherData (.response true sampleBody) 5 none).2).2 =
      some { toWeatherData := freshWeatherData sampleBody60, cachedAt := 7 } :=
  ⟨⟨by norm_num [sampleBody], by norm_num [sampleBody], by norm_num [sampleBody60],
      by norm_num [sampleBody60]⟩,
    claim_C3.1 sampleBody 5 none (by norm_num [sampleBody])
      (by norm_num [sampleBody]),
    claim_C3.2 sampleBody sampleBody60 5 7 none (by norm_num [sampleBody])
      (by norm_num [sampleBody]) (by norm_num [sampleBody60])
      (by norm_num [sampleBody60])⟩

/-- Invariant of the cache slot: whenever it is populated, the stored record
is a validated fresh reading — status `online`, unit `celsius`, temperature
within `[-90, 60]` and already rounded to one decimal place. -/
def slotInvariant : Option CachedWeatherData → Prop
  | none => True
  | some cached =>
      cached.connectionStatus = .online ∧
      cached.temperatureUnit = .celsius ∧
      -90 ≤ cached.temperature ∧ cached.temperature ≤ 60 ∧
      round1 cached.temperature = cached.temperature

theorem step_preserves {s : Option CachedWeatherData} (hs : slotInvariant s)
    (op : Op) : slotInvariant (step s op) := by
  cases op with
  | getCached now => exact hs
  | convert params => exact hs
  | hasData => exact hs
  | clear => exact trivial
  | fetch outcome now =>
      show slotInvariant (fetchWeatherData outcome now s).2
      cases outcome with
      | transportFailure =>
          rw [fetchWeatherData_snd_of_fail
            (rfl : fetchAttempt .transportFailure now =
              .error .upstreamTransportFailure) s]
          exact hs
      | response ok data =>
          cases ok with
          | false =>
              rw [fetchWeatherData_snd_of_fail
                (rfl : fetchAttempt (.response false data) now =
                  .error .weatherApiRequestFailed) s]
              exact hs
          | true =>
              by_cases hr : data.current.temp_c < -90 ∨ data.current.temp_c > 60
              · rw [fetchWeatherData_snd_of_fail
                  (by rw [fetchAttempt_response_true, if_pos hr]) s]
                exact hs
              · push_neg at hr
                rw [fetchWeatherData_of_success hr.1 hr.2 s]
                refine ⟨rfl, rfl, ?_, ?_, round1_idem _⟩
                · calc (-90 : ℚ) = round1 (-90) := round1_neg_ninety.symm
                    _ ≤ round1 data.current.temp_c := round1_le_round1 hr.1
                · calc round1 data.current.temp_c ≤ round1 60 :=
                      round1_le_round1 hr.2
                    _ = 60 := round1_sixty

/-- Claim C9: in every state reachable from the empty slot by any sequence of
operations, a populated slot holds a record with status `online`, unit
`celsius` and a one-decimal temperature inside `[-90, 60]`; the
`offline`/`outdated` labels never reach the slot itself. -/
theorem claim_C9 : ∀ ops : List Op, slotInvariant (run ops) := by
  have aux : ∀ (l : List Op) (s : Option CachedWeatherData),
      slotInvariant s → slotInvariant (l.foldl step s) := by
    intro l
    induction l with
    | nil => exact fun s hs => hs
    | cons op l ih => exact fun s hs => ih _ (step_preserves hs op)
  exact fun ops => aux ops none trivial

end Weather
